import Mathlib

/-!
Shallow embedding of the rendering context in `src/vulkan_context.cpp`
(class `ntf::vk_context`).  Pure selection logic (queue-family resolution,
swapchain format / present-mode / extent / image-count choices, device
suitability) is embedded as Lean functions; the stateful per-frame and
lifecycle procedures (`draw_frame`, `_recreate_swapchain`,
`create_vertex_buffer`, `destroy`) are embedded as functions from an
explicit context state to an emitted event trace plus a new state.
Machine `uint32_t` arithmetic is modelled on `Nat` with explicit
reduction modulo `2 ^ 32` where the source can overflow or truncate.
-/

namespace VkTests

/-- Value of `std::numeric_limits<uint32_t>::max()`. -/
def UINT32_MAX : Nat := 2 ^ 32 - 1

/-- Modulus of `uint32_t` arithmetic. -/
def U32_MOD : Nat := 2 ^ 32

/-- `std::clamp(v, lo, hi)` on unsigned integers, written exactly as the
C++ library specifies it: `v < lo ? lo : (hi < v ? hi : v)`. -/
def stdClamp (v lo hi : Nat) : Nat :=
  if v < lo then lo else if hi < v then hi else v

/-- `VkExtent2D`. -/
structure Extent2D where
  width : Nat
  height : Nat
deriving DecidableEq, Repr

/-- The fields of `VkSurfaceCapabilitiesKHR` read by `create_swapchain`. -/
structure SurfaceCapabilities where
  minImageCount : Nat
  maxImageCount : Nat
  currentExtent : Extent2D
  minImageExtent : Extent2D
  maxImageExtent : Extent2D
deriving DecidableEq, Repr

/-- The `VkFormat` values this program distinguishes. -/
inductive VkFormat where
  | B8G8R8A8_SRGB
  | R8G8B8A8_UNORM
  | otherFormat (code : Nat)
deriving DecidableEq, Repr

/-- The `VkColorSpaceKHR` values this program distinguishes. -/
inductive VkColorSpace where
  | SRGB_NONLINEAR
  | otherColorSpace (code : Nat)
deriving DecidableEq, Repr

/-- `VkSurfaceFormatKHR`. -/
structure SurfaceFormat where
  format : VkFormat
  colorSpace : VkColorSpace
deriving DecidableEq, Repr

/-- `VkPresentModeKHR` (the modes named in the source). -/
inductive PresentMode where
  | immediate
  | fifo
  | fifoRelaxed
  | mailbox
deriving DecidableEq, Repr

/-- One queue family as `_find_queue_families` observes it: the two
capability bits it tests in `queueFlags`, plus the per-family result of
`vkGetPhysicalDeviceSurfaceSupportKHR`. -/
structure QueueFamily where
  graphicsBit : Bool
  transferBit : Bool
  presentSupport : Bool
deriving DecidableEq, Repr

/-- `vk_context::queue_family_indices`. -/
structure queue_family_indices where
  graphics_family : Option Nat
  present_family : Option Nat
  transfer_family : Option Nat
deriving DecidableEq, Repr

/-- `queue_family_indices::is_complete`. -/
def queue_family_indices.is_complete (q : queue_family_indices) : Bool :=
  q.graphics_family.isSome && q.present_family.isSome && q.transfer_family.isSome

/-- The body of one iteration of the scan loop in `_find_queue_families`
(vulkan_context.cpp:288-310): each qualifying role is assigned the current
index unconditionally, overwriting any earlier assignment. -/
def qf_step (f : QueueFamily) (i : Nat) (acc : queue_family_indices) : queue_family_indices :=
  let acc1 := if f.graphicsBit then { acc with graphics_family := some i } else acc
  let acc2 := if f.transferBit then { acc1 with transfer_family := some i } else acc1
  if f.presentSupport then { acc2 with present_family := some i } else acc2

/-- The scan loop of `_find_queue_families`: after processing a family the
loop breaks as soon as the indices are complete (vulkan_context.cpp:312-314). -/
def find_queue_families_aux : List QueueFamily → Nat → queue_family_indices → queue_family_indices
  | [], _, acc => acc
  | f :: rest, i, acc =>
    let acc' := qf_step f i acc
    if acc'.is_complete then acc' else find_queue_families_aux rest (i + 1) acc'

/-- `vk_context::_find_queue_families` (vulkan_context.cpp:279-320). -/
def find_queue_families (fams : List QueueFamily) : queue_family_indices :=
  find_queue_families_aux fams 0 ⟨none, none, none⟩

/-- Number of families the scan of `_find_queue_families` actually
processes before it breaks (the whole list when it never completes). -/
def scan_count : List QueueFamily → Nat → queue_family_indices → Nat
  | [], _, _ => 0
  | f :: rest, i, acc =>
    let acc' := qf_step f i acc
    if acc'.is_complete then 1 else scan_count rest (i + 1) acc' + 1

/-- Index of the last element of a list satisfying `p`, if any. -/
def last_idx (p : QueueFamily → Bool) : List QueueFamily → Option Nat
  | [] => none
  | f :: rest =>
    match last_idx p rest with
    | some j => some (j + 1)
    | none => if p f then some 0 else none

/-- What `pick_physical_device`'s suitability lambda reads from a physical
device: its queue families, whether `VK_KHR_swapchain` is supported, and
the surface formats and present modes `_query_swapchain_support` returns. -/
structure PhysDevice where
  queueFamilies : List QueueFamily
  hasSwapchainExt : Bool
  formats : List SurfaceFormat
  present_modes : List PresentMode
deriving DecidableEq, Repr

/-- The `is_suitable` lambda inside `vk_context::pick_physical_device`
(vulkan_context.cpp:349-363): complete queue-family indices, the swapchain
extension, and non-empty format and present-mode sets (the latter two are
only queried when the extension is supported). -/
def is_suitable (d : PhysDevice) : Bool :=
  let indices := find_queue_families d.queueFamilies
  let ext_supported := d.hasSwapchainExt
  let swapchain_adequate := ext_supported && (!d.formats.isEmpty && !d.present_modes.isEmpty)
  indices.is_complete && ext_supported && swapchain_adequate

/-- `vk_context::pick_physical_device` (vulkan_context.cpp:347-381): the
first suitable device in enumeration order, `none` when none qualifies. -/
def pick_physical_device (devices : List PhysDevice) : Option PhysDevice :=
  devices.find? is_suitable

/-- The `format` lambda inside `create_swapchain` (vulkan_context.cpp:458-468):
first `B8G8R8A8_SRGB`/`SRGB_NONLINEAR` entry, else `formats[0]`.  The
fallback indexes the list unconditionally; `none` models the out-of-bounds
access on an empty list. -/
def choose_format (formats : List SurfaceFormat) : Option SurfaceFormat :=
  match formats.find? (fun f =>
      f.format == VkFormat.B8G8R8A8_SRGB && f.colorSpace == VkColorSpace.SRGB_NONLINEAR) with
  | some f => some f
  | none => formats.head?

/-- The `present_mode` lambda inside `create_swapchain`
(vulkan_context.cpp:471-484): `MAILBOX` when offered, else `FIFO`. -/
def choose_present_mode (modes : List PresentMode) : PresentMode :=
  match modes.find? (fun m => m == PresentMode.mailbox) with
  | some m => m
  | none => PresentMode.fifo

/-- The `extent` lambda inside `create_swapchain` (vulkan_context.cpp:487-504).
When `currentExtent.width` is defined (not `UINT32_MAX`) it is returned as
is.  Otherwise the source first overwrites `actual_extent.height` with the
framebuffer WIDTH clamped against the width bounds, then overwrites
`actual_extent.width` with that freshly written height clamped against the
height bounds; the framebuffer height is never read.  The `% U32_MOD`
models the `static_cast<uint32_t>` of the `std::size_t` callback outputs. -/
def choose_extent (caps : SurfaceCapabilities) (fb_width fb_height : Nat) : Extent2D :=
  if caps.currentExtent.width ≠ UINT32_MAX then
    caps.currentExtent
  else
    let w0 := fb_width % U32_MOD
    let _h0 := fb_height % U32_MOD
    let h1 := stdClamp w0 caps.minImageExtent.width caps.maxImageExtent.width
    let w1 := stdClamp h1 caps.minImageExtent.height caps.maxImageExtent.height
    ⟨w1, h1⟩

/-- The extent rule as the specification words it ("clamp each axis against
its own bound"), for comparison with `choose_extent`: width clamped into
the width range, height clamped into the height range. -/
def choose_extent_per_axis (caps : SurfaceCapabilities) (fb_width fb_height : Nat) : Extent2D :=
  if caps.currentExtent.width ≠ UINT32_MAX then
    caps.currentExtent
  else
    ⟨stdClamp fb_width caps.minImageExtent.width caps.maxImageExtent.width,
     stdClamp fb_height caps.minImageExtent.height caps.maxImageExtent.height⟩

/-- The `image_count` computation in `create_swapchain`
(vulkan_context.cpp:510-518): `minImageCount + 1` (in `uint32_t`), clamped
down to `maxImageCount` when that is non-zero and exceeded. -/
def choose_image_count (caps : SurfaceCapabilities) : Nat :=
  let image_count := (caps.minImageCount + 1) % U32_MOD
  if 0 < caps.maxImageCount ∧ caps.maxImageCount < image_count then
    caps.maxImageCount
  else
    image_count

/-- `VkResult` values distinguished by `draw_frame`; `errorOther` stands
for every result outside the success / suboptimal / out-of-date set. -/
inductive VkResult where
  | success
  | suboptimalKHR
  | errorOutOfDateKHR
  | errorOther
deriving DecidableEq, Repr

/-- Tag for the two buffers handled by `create_vertex_buffer`. -/
inductive BufTag where
  | staging
  | vertex
deriving DecidableEq, Repr

/-- The two buffer-usage flag combinations passed to `_create_buffer`. -/
inductive BufUsage where
  | transferSrc
  | transferDstVertex
deriving DecidableEq, Repr

/-- The two memory-property flag combinations passed to `_create_buffer`. -/
inductive MemProps where
  | hostVisibleCoherent
  | deviceLocal
deriving DecidableEq, Repr

/-- Observable actions (Vulkan calls and command recordings) emitted by
the stateful procedures of `vk_context`.  Framebuffer and image-view
handles are `(generation, index)` pairs. -/
inductive Event where
  | waitForFences (slot : Nat)
  | resetFences (slot : Nat)
  | acquireNextImage (slot : Nat)
  | resetCommandBuffer (slot : Nat)
  | beginCommandBuffer
  | beginRenderPass (imageIndex : Nat)
  | bindPipeline
  | bindVertexBuffer
  | setViewport
  | setScissor
  | cmdDraw (vertexCount : Nat)
  | endRenderPass
  | endCommandBuffer
  | queueSubmitGraphics (slot : Nat)
  | queuePresent (slot : Nat)
  | deviceWaitIdle
  | destroyFramebuffer (h : Nat × Nat)
  | destroyImageView (h : Nat × Nat)
  | destroySwapchain
  | createSwapchainE
  | createImageViewsE
  | createFramebuffersE
  | createBufferE (tag : BufTag) (usage : BufUsage) (props : MemProps)
  | allocateMemory (tag : BufTag)
  | bindBufferMemory (tag : BufTag)
  | mapMemory (tag : BufTag)
  | memcpyVertices (tag : BufTag)
  | unmapMemory (tag : BufTag)
  | beginCmdOneTimeSubmit
  | cmdCopyBuffer (src dst : BufTag) (size : Nat)
  | endTransferCmd
  | queueSubmitTransfer
  | transferQueueWaitIdle
  | destroyBuffer (tag : BufTag)
  | freeMemory (tag : BufTag)
  | destroySemaphoreImageAvail (i : Nat)
  | destroySemaphoreRenderFinish (i : Nat)
  | destroyFence (i : Nat)
  | destroyCommandPoolTransfer
  | destroyCommandPoolGraphics
  | destroyPipeline
  | destroyPipelineLayout
  | destroyRenderPass
  | destroyDevice
  | destroyDebugMessenger
  | destroySurface
  | destroyInstance
deriving DecidableEq, Repr

/-- `vk_context::MAX_FRAMES_IN_FLIGHT` (vulkan_context.hpp:31). -/
def MAX_FRAMES_IN_FLIGHT : Nat := 2

/-- The mutable context state touched by the swapchain and frame
procedures.  `gen` is a fresh-handle generation counter; `imageCount` is
the number of images the driver returns for the (unchanged) surface. -/
structure CtxState where
  gen : Nat
  imageCount : Nat
  framebuffers : List (Nat × Nat)
  imageViews : List (Nat × Nat)
  swapchain : Nat
  pipeline : Nat
  renderPass : Nat
  currFrame : Nat
  framebufferResized : Bool
  enableLayers : Bool
deriving DecidableEq, Repr

/-- `vk_context::_cleanup_swapchain` (vulkan_context.cpp:1105-1115):
destroys every framebuffer, then every image view, then the swapchain
handle.  Like the C++ it does not clear the member vectors. -/
def cleanup_swapchain (s : CtxState) : List Event :=
  s.framebuffers.map Event.destroyFramebuffer
    ++ s.imageViews.map Event.destroyImageView
    ++ [Event.destroySwapchain]

/-- The state-and-trace effect of `vk_context::create_swapchain` as used on
the recreation path: a new swapchain handle is created. -/
def create_swapchain_st (s : CtxState) : List Event × CtxState :=
  ([Event.createSwapchainE], { s with swapchain := s.gen, gen := s.gen + 1 })

/-- The state-and-trace effect of `vk_context::create_imageviews`: one
fresh view per swapchain image. -/
def create_imageviews_st (s : CtxState) : List Event × CtxState :=
  ([Event.createImageViewsE],
   { s with imageViews := (List.range s.imageCount).map (fun i => (s.gen, i)),
            gen := s.gen + 1 })

/-- The state-and-trace effect of `vk_context::create_framebuffers`: one
fresh framebuffer per image view, bound to the existing render pass. -/
def create_framebuffers_st (s : CtxState) : List Event × CtxState :=
  ([Event.createFramebuffersE],
   { s with framebuffers := (List.range s.imageViews.length).map (fun i => (s.gen, i)),
            gen := s.gen + 1 })

/-- `vk_context::_recreate_swapchain` (vulkan_context.cpp:1117-1125):
`vkDeviceWaitIdle`, `_cleanup_swapchain`, then `create_swapchain`,
`create_imageviews`, `create_framebuffers`. -/
def recreate_swapchain (s : CtxState) : List Event × CtxState :=
  let cleanupTr := cleanup_swapchain s
  let r1 := create_swapchain_st s
  let r2 := create_imageviews_st r1.2
  let r3 := create_framebuffers_st r2.2
  (Event.deviceWaitIdle :: (cleanupTr ++ r1.1 ++ r2.1 ++ r3.1), r3.2)

/-- The `record_buffer` lambda inside `draw_frame`
(vulkan_context.cpp:1161-1217); the draw call covers the three fixed
vertices. -/
def record_buffer (imageIndex : Nat) : List Event :=
  [Event.beginCommandBuffer, Event.beginRenderPass imageIndex, Event.bindPipeline,
   Event.bindVertexBuffer, Event.setViewport, Event.setScissor, Event.cmdDraw 3,
   Event.endRenderPass, Event.endCommandBuffer]

/-- Outcome of one `draw_frame` call: normal return, or one of the three
`std::runtime_error` throws it can raise. -/
inductive DrawOutcome where
  | ok
  | fatalAcquire
  | fatalSubmit
  | fatalPresent
deriving DecidableEq, Repr

/-- `vk_context::draw_frame` (vulkan_context.cpp:1158-1290), parameterised
by the results the driver returns for the acquire, submit and present
calls and by the acquired image index.  Mirrors the source order: fence
wait, fence reset (line 1223), acquire; on `OUT_OF_DATE` recreate and
return; otherwise a second fence reset, command-buffer reset, recording,
submit, present, present-result handling, and the slot-index advance. -/
def draw_frame (acquireRes submitRes presentRes : VkResult) (imageIndex : Nat)
    (s : CtxState) : List Event × CtxState × DrawOutcome :=
  let c := s.currFrame
  let tr0 : List Event :=
    [Event.waitForFences c, Event.resetFences c, Event.acquireNextImage c]
  if acquireRes = VkResult.errorOutOfDateKHR then
    let r := recreate_swapchain s
    (tr0 ++ r.1, r.2, DrawOutcome.ok)
  else if acquireRes ≠ VkResult.success ∧ acquireRes ≠ VkResult.suboptimalKHR then
    (tr0, s, DrawOutcome.fatalAcquire)
  else
    let tr1 := tr0 ++ [Event.resetFences c, Event.resetCommandBuffer c]
      ++ record_buffer imageIndex ++ [Event.queueSubmitGraphics c]
    if submitRes ≠ VkResult.success then
      (tr1, s, DrawOutcome.fatalSubmit)
    else
      let tr2 := tr1 ++ [Event.queuePresent c]
      if presentRes = VkResult.errorOutOfDateKHR ∨ presentRes = VkResult.suboptimalKHR
          ∨ s.framebufferResized then
        let r := recreate_swapchain { s with framebufferResized := false }
        (tr2 ++ r.1, { r.2 with currFrame := (c + 1) % MAX_FRAMES_IN_FLIGHT }, DrawOutcome.ok)
      else if presentRes ≠ VkResult.success then
        (tr2, s, DrawOutcome.fatalPresent)
      else
        (tr2, { s with currFrame := (c + 1) % MAX_FRAMES_IN_FLIGHT }, DrawOutcome.ok)

/-- Number of entries in the fixed `vertices` list (vulkan_context.cpp:11-15). -/
def vertex_count : Nat := 3

/-- `sizeof(ntf::vertex)`: a two-float position and a three-float color,
20 bytes. -/
def vertex_stride : Nat := 20

/-- `buffer_sz = sizeof(vertices[0]) * vertices.size()` (vulkan_context.cpp:990). -/
def vertex_buffer_size : Nat := vertex_stride * vertex_count

/-- Trace of `vk_context::_create_buffer` (vulkan_context.cpp:910-963):
buffer creation, memory allocation, memory binding. -/
def create_buffer_tr (tag : BufTag) (usage : BufUsage) (props : MemProps) : List Event :=
  [Event.createBufferE tag usage props, Event.allocateMemory tag, Event.bindBufferMemory tag]

/-- Trace of `vk_context::_copy_buffer` (vulkan_context.cpp:965-987): a
one-time-submit command buffer recording the copy, submitted on the
transfer queue, followed by `vkQueueWaitIdle` on that queue. -/
def copy_buffer_tr (src dst : BufTag) (sz : Nat) : List Event :=
  [Event.beginCmdOneTimeSubmit, Event.cmdCopyBuffer src dst sz, Event.endTransferCmd,
   Event.queueSubmitTransfer, Event.transferQueueWaitIdle]

/-- Trace of `vk_context::create_vertex_buffer` (vulkan_context.cpp:989-1036). -/
def create_vertex_buffer_tr : List Event :=
  create_buffer_tr BufTag.staging BufUsage.transferSrc MemProps.hostVisibleCoherent
    ++ [Event.mapMemory BufTag.staging, Event.memcpyVertices BufTag.staging,
        Event.unmapMemory BufTag.staging]
    ++ create_buffer_tr BufTag.vertex BufUsage.transferDstVertex MemProps.deviceLocal
    ++ copy_buffer_tr BufTag.staging BufTag.vertex vertex_buffer_size
    ++ [Event.destroyBuffer BufTag.staging, Event.freeMemory BufTag.staging]

/-- Trace of `vk_context::destroy` (vulkan_context.cpp:1127-1156): the
context teardown, in the source's order. -/
def context_destroy_tr (s : CtxState) : List Event :=
  cleanup_swapchain s
    ++ [Event.destroyBuffer BufTag.vertex, Event.freeMemory BufTag.vertex]
    ++ ((List.range MAX_FRAMES_IN_FLIGHT).map (fun i =>
          [Event.destroySemaphoreImageAvail i, Event.destroySemaphoreRenderFinish i,
           Event.destroyFence i])).flatten
    ++ [Event.destroyCommandPoolTransfer, Event.destroyCommandPoolGraphics,
        Event.destroyPipeline, Event.destroyPipelineLayout, Event.destroyRenderPass,
        Event.destroyDevice]
    ++ (if s.enableLayers then [Event.destroyDebugMessenger] else [])
    ++ [Event.destroySurface, Event.destroyInstance]

/-- Concrete context state used for closed evaluations: three swapchain
images, slot index 0, no pending resize flag. -/
def s0 : CtxState :=
  { gen := 100, imageCount := 3,
    framebuffers := [(0, 0), (0, 1), (0, 2)],
    imageViews := [(1, 0), (1, 1), (1, 2)],
    swapchain := 2, pipeline := 7, renderPass := 8,
    currFrame := 0, framebufferResized := false, enableLayers := true }

/-- Surface state of end-to-end scenario A: extent 800×600, two formats,
image-count bounds (2, 4). -/
def caps_a : SurfaceCapabilities :=
  { minImageCount := 2, maxImageCount := 4,
    currentExtent := ⟨800, 600⟩,
    minImageExtent := ⟨1, 1⟩, maxImageExtent := ⟨4096, 4096⟩ }

/-- Format list of scenario A. -/
def formats_a : List SurfaceFormat :=
  [⟨VkFormat.B8G8R8A8_SRGB, VkColorSpace.SRGB_NONLINEAR⟩,
   ⟨VkFormat.R8G8B8A8_UNORM, VkColorSpace.SRGB_NONLINEAR⟩]

/-- Present modes of scenario A. -/
def modes_a : List PresentMode := [PresentMode.fifo, PresentMode.mailbox]

/-- Present modes of scenario B. -/
def modes_b : List PresentMode := [PresentMode.fifo]

/-- Capabilities with an undefined current extent, width bounds [50, 400],
height bounds [60, 600]. -/
def caps_undef : SurfaceCapabilities :=
  { minImageCount := 2, maxImageCount := 4,
    currentExtent := ⟨UINT32_MAX, 600⟩,
    minImageExtent := ⟨50, 60⟩, maxImageExtent := ⟨400, 600⟩ }

/-- Capabilities whose reported maximum image count equals the minimum. -/
def caps_min_eq_max : SurfaceCapabilities :=
  { minImageCount := 2, maxImageCount := 2,
    currentExtent := ⟨800, 600⟩,
    minImageExtent := ⟨1, 1⟩, maxImageExtent := ⟨4096, 4096⟩ }

/-- Queue-family list on which the transfer role is taken from family 0
first and then overwritten by family 1. -/
def qf_cx : List QueueFamily :=
  [{ graphicsBit := false, transferBit := true, presentSupport := false },
   { graphicsBit := true, transferBit := true, presentSupport := true }]

/-- A suitable physical device: one all-capable queue family, the
swapchain extension, one format and one present mode. -/
def dev0 : PhysDevice :=
  { queueFamilies := [{ graphicsBit := true, transferBit := true, presentSupport := true }],
    hasSwapchainExt := true,
    formats := [⟨VkFormat.B8G8R8A8_SRGB, VkColorSpace.SRGB_NONLINEAR⟩],
    present_modes := [PresentMode.fifo] }

/-- The `draw_frame` run in which the acquire call reports the surface is
out of date. -/
def draw_frame_ood : List Event × CtxState × DrawOutcome :=
  draw_frame VkResult.errorOutOfDateKHR VkResult.success VkResult.success 0 s0

/-- Helper: a non-empty format list always gives `choose_format` a value
(the in-bounds `formats[0]` fallback). -/
theorem choose_format_isSome_of_ne_nil (l : List SurfaceFormat) (h : l ≠ []) :
    (choose_format l).isSome := by
  unfold choose_format
  cases hf : l.find? (fun f =>
      f.format == VkFormat.B8G8R8A8_SRGB && f.colorSpace == VkColorSpace.SRGB_NONLINEAR) with
  | some f => rfl
  | none =>
    cases l with
    | nil => exact absurd rfl h
    | cons a as => rfl

/-- C2: the claim says each axis of the fallback extent is clamped against
its own bound; the code clamps the framebuffer width against the width
bounds, stores it as the HEIGHT, then clamps that value against the height
bounds to produce the width — the framebuffer height is never read.  At an
undefined current extent with framebuffer 100×200, width bounds [50, 400]
and height bounds [60, 600], the code yields 100×100 while the claimed
per-axis rule yields 100×200. -/
theorem c2_extent_clamp_swapped :
    choose_extent caps_undef 100 200 = ⟨100, 100⟩
    ∧ choose_extent_per_axis caps_undef 100 200 = ⟨100, 200⟩
    ∧ choose_extent caps_undef 100 200 ≠ choose_extent_per_axis caps_undef 100 200
    ∧ choose_extent caps_a 100 200 = ⟨800, 600⟩ := by
  refine ⟨by decide, by decide, by decide, by decide⟩

/-- C4 counterexample: with `(minImageCount, maxImageCount) = (2, 2)` —
inside the claim's domain — the chosen image count is 2, which is not
greater than or equal to `minImageCount + 1 = 3`. -/
theorem c4_cx_min_eq_max :
    caps_min_eq_max.minImageCount ≤ caps_min_eq_max.maxImageCount
    ∧ choose_image_count caps_min_eq_max = 2
    ∧ ¬ (caps_min_eq_max.minImageCount + 1 ≤ choose_image_count caps_min_eq_max) := by
  refine ⟨by decide, by decide, by decide⟩

/-- C4 (amended): for `maxImageCount ∈ {0} ∪ [minImageCount, ∞)` (and
`minImageCount + 1` within `uint32_t` range) the chosen image count lies in
`[minImageCount, maxImageCount]` with the upper bound waived when
`maxImageCount = 0`, and it is at least `minImageCount + 1` except when
`0 < maxImageCount < minImageCount + 1`, in which case it equals
`maxImageCount`. -/
theorem c4_image_count_bounds (caps : SurfaceCapabilities)
    (hof : caps.minImageCount + 1 < U32_MOD)
    (hdom : caps.maxImageCount = 0 ∨ caps.minImageCount ≤ caps.maxImageCount) :
    caps.minImageCount ≤ choose_image_count caps
    ∧ (0 < caps.maxImageCount → choose_image_count caps ≤ caps.maxImageCount)
    ∧ (caps.maxImageCount = 0 ∨ caps.minImageCount + 1 ≤ caps.maxImageCount →
        caps.minImageCount + 1 ≤ choose_image_count caps)
    ∧ (0 < caps.maxImageCount → caps.maxImageCount < caps.minImageCount + 1 →
        choose_image_count caps = caps.maxImageCount) := by
  simp only [choose_image_count, U32_MOD] at *
  rw [Nat.mod_eq_of_lt hof]
  split <;> omega

/-- C4 witness: the amended bounds instantiated at scenario A's
capabilities (2, 4). -/
theorem c4_image_count_bounds_witness :
    caps_a.minImageCount ≤ choose_image_count caps_a
    ∧ (0 < caps_a.maxImageCount → choose_image_count caps_a ≤ caps_a.maxImageCount)
    ∧ (caps_a.maxImageCount = 0 ∨ caps_a.minImageCount + 1 ≤ caps_a.maxImageCount →
        caps_a.minImageCount + 1 ≤ choose_image_count caps_a)
    ∧ (0 < caps_a.maxImageCount → caps_a.maxImageCount < caps_a.minImageCount + 1 →
        choose_image_count caps_a = caps_a.maxImageCount) :=
  c4_image_count_bounds caps_a (by decide) (Or.inr (by decide))

/-- C5: over the claim's domain, the chosen image count equals
`min (minImageCount + 1) maxImageCount` when `maxImageCount > 0` and
`minImageCount + 1` otherwise, the sum taken in `uint32_t` arithmetic. -/
theorem c5_image_count_formula (caps : SurfaceCapabilities)
    (hmn : caps.minImageCount < U32_MOD) (hmx : caps.maxImageCount < U32_MOD)
    (hdom : caps.maxImageCount = 0 ∨ caps.minImageCount ≤ caps.maxImageCount) :
    (0 < caps.maxImageCount →
      choose_image_count caps = min ((caps.minImageCount + 1) % U32_MOD) caps.maxImageCount)
    ∧ (caps.maxImageCount = 0 →
      choose_image_count caps = (caps.minImageCount + 1) % U32_MOD) := by
  simp only [choose_image_count, U32_MOD] at *
  constructor <;> intro h <;> split <;> omega

/-- C5 witness: the formula instantiated at scenario A's capabilities
(2, 4), giving image count `min 3 4 = 3`. -/
theorem c5_image_count_formula_witness :
    (0 < caps_a.maxImageCount →
      choose_image_count caps_a = min ((caps_a.minImageCount + 1) % U32_MOD) caps_a.maxImageCount)
    ∧ (caps_a.maxImageCount = 0 →
      choose_image_count caps_a = (caps_a.minImageCount + 1) % U32_MOD) :=
  c5_image_count_formula caps_a (by decide) (by decide) (Or.inr (by decide))

/-- C6: on scenario A's surface state, `create_swapchain` chooses the
`B8G8R8A8_SRGB`/`SRGB_NONLINEAR` format, `MAILBOX`, extent 800×600 (even
with a differing framebuffer size 1024×768) and image count 3; with only
`FIFO` offered it falls back to `FIFO`. -/
theorem c6_scenario_a_b :
    choose_format formats_a = some ⟨VkFormat.B8G8R8A8_SRGB, VkColorSpace.SRGB_NONLINEAR⟩
    ∧ choose_present_mode modes_a = PresentMode.mailbox
    ∧ choose_extent caps_a 1024 768 = ⟨800, 600⟩
    ∧ choose_image_count caps_a = 3
    ∧ choose_present_mode modes_b = PresentMode.fifo := by
  refine ⟨by decide, by decide, by decide, by decide, by decide⟩

/-- C10: any device accepted by `pick_physical_device` has a non-empty
format list, and on such a list the format choice — whose fallback is the
unconditional `formats[0]` read — always produces a value, so the
out-of-bounds branch is unreachable for accepted devices. -/
theorem c10_format_fallback_in_bounds (devices : List PhysDevice) (d : PhysDevice)
    (h : pick_physical_device devices = some d) :
    d.formats ≠ [] ∧ (choose_format d.formats).isSome := by
  have hs : is_suitable d = true := List.find?_some h
  have hne : d.formats ≠ [] := by
    intro hnil
    simp [is_suitable, hnil] at hs
  exact ⟨hne, choose_format_isSome_of_ne_nil d.formats hne⟩

/-- C10 witness: a single suitable device is picked and its format choice
is in bounds. -/
theorem c10_format_fallback_in_bounds_witness :
    pick_physical_device [dev0] = some dev0
    ∧ (dev0.formats ≠ [] ∧ (choose_format dev0.formats).isSome) :=
  ⟨by decide, c10_format_fallback_in_bounds [dev0] dev0 (by decide)⟩

/-- Helper: the scan step assigns the graphics role exactly when the
family advertises the graphics bit. -/
theorem qf_step_graphics (f : QueueFamily) (i : Nat) (acc : queue_family_indices) :
    (qf_step f i acc).graphics_family =
      if f.graphicsBit then some i else acc.graphics_family := by
  cases hg : f.graphicsBit <;> cases ht : f.transferBit <;> cases hp : f.presentSupport <;>
    simp [qf_step, hg, ht, hp]

/-- Helper: the scan step assigns the transfer role exactly when the
family advertises the transfer bit. -/
theorem qf_step_transfer (f : QueueFamily) (i : Nat) (acc : queue_family_indices) :
    (qf_step f i acc).transfer_family =
      if f.transferBit then some i else acc.transfer_family := by
  cases hg : f.graphicsBit <;> cases ht : f.transferBit <;> cases hp : f.presentSupport <;>
    simp [qf_step, hg, ht, hp]

/-- Helper: the scan step assigns the presentation role exactly when the
per-family surface-support query returns true. -/
theorem qf_step_present (f : QueueFamily) (i : Nat) (acc : queue_family_indices) :
    (qf_step f i acc).present_family =
      if f.presentSupport then some i else acc.present_family := by
  cases hg : f.graphicsBit <;> cases ht : f.transferBit <;> cases hp : f.presentSupport <;>
    simp [qf_step, hg, ht, hp]

/-- Helper: for any role (given by its qualifier `p` and field reader `g`
related by `hstep`), the scan loop resolves the role to the LAST
qualifying family among the families it actually processes, keeping the
incoming value when none of them qualifies. -/
theorem find_aux_role (p : QueueFamily → Bool) (g : queue_family_indices → Option Nat)
    (hstep : ∀ f i acc, g (qf_step f i acc) = if p f then some i else g acc)
    (fams : List QueueFamily) : ∀ (i : Nat) (acc : queue_family_indices),
    g (find_queue_families_aux fams i acc) =
      match last_idx p (fams.take (scan_count fams i acc)) with
      | some j => some (i + j)
      | none => g acc := by
  induction fams with
  | nil => intro i acc; simp [find_queue_families_aux, scan_count, last_idx]
  | cons f rest ih =>
    intro i acc
    by_cases hc : (qf_step f i acc).is_complete = true
    · simp only [find_queue_families_aux, scan_count, hc, if_true]
      rw [hstep]
      simp only [List.take_succ_cons, List.take_zero, last_idx]
      cases hp : p f <;> simp [hp]
    · simp only [find_queue_families_aux, scan_count, hc, Bool.false_eq_true, if_false]
      rw [List.take_succ_cons, ih (i + 1) (qf_step f i acc)]
      cases hlast : last_idx p (rest.take (scan_count rest (i + 1) (qf_step f i acc))) with
      | some j =>
        simp only [last_idx, hlast, Option.some.injEq]
        omega
      | none =>
        rw [hstep]
        cases hp : p f <;> simp [last_idx, hlast, hp]

/-- C3 counterexample: on the two-family input `qf_cx` the first family
qualifying for the transfer role is index 0, but `_find_queue_families`
resolves the transfer role to index 1 (family 1 overwrites family 0's
match before the scan completes), so "first matching family wins" is
false. -/
theorem c3_cx_transfer_not_first :
    (find_queue_families qf_cx).transfer_family = some 1
    ∧ List.findIdx? (fun f => f.transferBit) qf_cx = some 0
    ∧ (find_queue_families qf_cx).transfer_family
        ≠ List.findIdx? (fun f => f.transferBit) qf_cx := by
  refine ⟨by decide, by decide, by decide⟩

/-- C3 (amended): `_find_queue_families` scans the families in order and
stops with the first family whose processing leaves all three roles
resolved; each role resolves to the LAST family among those scanned that
qualifies for it (later matches overwrite earlier ones), not the first;
and — being a pure function of the capability bitmasks and the per-family
presentation-support mapping — it returns the same indices on every call
with the same input. -/
theorem c3_queue_family_scan (fams : List QueueFamily) :
    (find_queue_families fams).graphics_family =
      last_idx (fun f => f.graphicsBit)
        (fams.take (scan_count fams 0 ⟨none, none, none⟩))
    ∧ (find_queue_families fams).transfer_family =
      last_idx (fun f => f.transferBit)
        (fams.take (scan_count fams 0 ⟨none, none, none⟩))
    ∧ (find_queue_families fams).present_family =
      last_idx (fun f => f.presentSupport)
        (fams.take (scan_count fams 0 ⟨none, none, none⟩)) := by
  refine ⟨?_, ?_, ?_⟩
  · have h := find_aux_role (fun f => f.graphicsBit) (fun q => q.graphics_family)
      qf_step_graphics fams 0 ⟨none, none, none⟩
    simp only at h
    simp only [find_queue_families, h]
    cases hl : last_idx (fun f => f.graphicsBit)
        (fams.take (scan_count fams 0 ⟨none, none, none⟩)) <;> simp [hl]
  · have h := find_aux_role (fun f => f.transferBit) (fun q => q.transfer_family)
      qf_step_transfer fams 0 ⟨none, none, none⟩
    simp only at h
    simp only [find_queue_families, h]
    cases hl : last_idx (fun f => f.transferBit)
        (fams.take (scan_count fams 0 ⟨none, none, none⟩)) <;> simp [hl]
  · have h := find_aux_role (fun f => f.presentSupport) (fun q => q.present_family)
      qf_step_present fams 0 ⟨none, none, none⟩
    simp only at h
    simp only [find_queue_families, h]
    cases hl : last_idx (fun f => f.presentSupport)
        (fams.take (scan_count fams 0 ⟨none, none, none⟩)) <;> simp [hl]

/-- C8: `_recreate_swapchain` first waits for full device idle, then
destroys framebuffers, then image views, then the swapchain handle, then
rebuilds swapchain, image views and framebuffers in that order, and never
touches the graphics pipeline or the render pass. -/
theorem c8_recreate_order (s : CtxState) :
    (recreate_swapchain s).1 =
      Event.deviceWaitIdle ::
        (s.framebuffers.map Event.destroyFramebuffer
          ++ s.imageViews.map Event.destroyImageView
          ++ [Event.destroySwapchain, Event.createSwapchainE, Event.createImageViewsE,
              Event.createFramebuffersE])
    ∧ (recreate_swapchain s).2.pipeline = s.pipeline
    ∧ (recreate_swapchain s).2.renderPass = s.renderPass := by
  refine ⟨?_, rfl, rfl⟩
  simp [recreate_swapchain, cleanup_swapchain, create_swapchain_st, create_imageviews_st,
    create_framebuffers_st]

/-- C1: when the acquire call reports `VK_ERROR_OUT_OF_DATE_KHR`,
`draw_frame` triggers the full swapchain recreation and returns without
recording, submitting, drawing or presenting, and without advancing the
frame-slot index — but, contrary to the claim, the current slot's fence
HAS already been reset: the reset at vulkan_context.cpp:1223 runs before
the acquire call, so the abandoned frame leaves the fence unsignaled. -/
theorem c1_out_of_date_acquire :
    Event.resetFences 0 ∈ draw_frame_ood.1
    ∧ Event.deviceWaitIdle ∈ draw_frame_ood.1
    ∧ Event.createSwapchainE ∈ draw_frame_ood.1
    ∧ Event.createImageViewsE ∈ draw_frame_ood.1
    ∧ Event.createFramebuffersE ∈ draw_frame_ood.1
    ∧ Event.beginCommandBuffer ∉ draw_frame_ood.1
    ∧ Event.cmdDraw 3 ∉ draw_frame_ood.1
    ∧ Event.queueSubmitGraphics 0 ∉ draw_frame_ood.1
    ∧ Event.queuePresent 0 ∉ draw_frame_ood.1
    ∧ Event.resetCommandBuffer 0 ∉ draw_frame_ood.1
    ∧ draw_frame_ood.2.1.currFrame = s0.currFrame
    ∧ draw_frame_ood.2.2 = DrawOutcome.ok := by
  decide

/-- C7: when `draw_frame` reaches the present step (acquire and submit
succeeded), a present result of out-of-date or suboptimal, or a pending
host resize flag, makes it clear the flag, run the swapchain recreation
and return normally; any other non-success present result raises the
fatal present error. -/
theorem c7_present_result_handling (presentRes : VkResult) (imageIndex : Nat) (s : CtxState) :
    (presentRes = VkResult.errorOutOfDateKHR ∨ presentRes = VkResult.suboptimalKHR
        ∨ s.framebufferResized = true →
      (draw_frame VkResult.success VkResult.success presentRes imageIndex s).2.2
          = DrawOutcome.ok
      ∧ (draw_frame VkResult.success VkResult.success presentRes imageIndex s).2.1.framebufferResized
          = false
      ∧ Event.deviceWaitIdle
          ∈ (draw_frame VkResult.success VkResult.success presentRes imageIndex s).1
      ∧ Event.createSwapchainE
          ∈ (draw_frame VkResult.success VkResult.success presentRes imageIndex s).1
      ∧ Event.createImageViewsE
          ∈ (draw_frame VkResult.success VkResult.success presentRes imageIndex s).1
      ∧ Event.createFramebuffersE
          ∈ (draw_frame VkResult.success VkResult.success presentRes imageIndex s).1)
    ∧ (presentRes = VkResult.errorOther → s.framebufferResized = false →
      (draw_frame VkResult.success VkResult.success presentRes imageIndex s).2.2
          = DrawOutcome.fatalPresent) := by
  constructor
  · intro h
    rcases h with h | h | h
    · subst h
      simp [draw_frame, recreate_swapchain, cleanup_swapchain, create_swapchain_st,
        create_imageviews_st, create_framebuffers_st, record_buffer]
    · subst h
      simp [draw_frame, recreate_swapchain, cleanup_swapchain, create_swapchain_st,
        create_imageviews_st, create_framebuffers_st, record_buffer]
    · simp [draw_frame, h, recreate_swapchain, cleanup_swapchain, create_swapchain_st,
        create_imageviews_st, create_framebuffers_st, record_buffer]
  · intro h1 h2
    subst h1
    simp [draw_frame, h2]

/-- C7 witness: a suboptimal present result is recovered without an error,
and an unexpected present error is fatal, at the concrete state `s0`. -/
theorem c7_present_result_handling_witness :
    (draw_frame VkResult.success VkResult.success VkResult.suboptimalKHR 0 s0).2.2
        = DrawOutcome.ok
    ∧ (draw_frame VkResult.success VkResult.success VkResult.errorOther 0 s0).2.2
        = DrawOutcome.fatalPresent :=
  ⟨((c7_present_result_handling VkResult.suboptimalKHR 0 s0).1 (Or.inr (Or.inl rfl))).1,
   (c7_present_result_handling VkResult.errorOther 0 s0).2 rfl rfl⟩

/-- C9: `create_vertex_buffer` creates the host-visible staging buffer,
maps it, copies the vertex list and unmaps, creates the device-local
vertex buffer, copies staging to device-local through the one-time-submit
transfer command buffer with a blocking transfer-queue idle wait, and only
then destroys the staging buffer and frees its memory; the device-local
buffer is destroyed only by the context teardown. -/
theorem c9_vertex_buffer_staging (s : CtxState) :
    create_vertex_buffer_tr =
      [Event.createBufferE BufTag.staging BufUsage.transferSrc MemProps.hostVisibleCoherent,
       Event.allocateMemory BufTag.staging, Event.bindBufferMemory BufTag.staging,
       Event.mapMemory BufTag.staging, Event.memcpyVertices BufTag.staging,
       Event.unmapMemory BufTag.staging,
       Event.createBufferE BufTag.vertex BufUsage.transferDstVertex MemProps.deviceLocal,
       Event.allocateMemory BufTag.vertex, Event.bindBufferMemory BufTag.vertex,
       Event.beginCmdOneTimeSubmit, Event.cmdCopyBuffer BufTag.staging BufTag.vertex 60,
       Event.endTransferCmd, Event.queueSubmitTransfer, Event.transferQueueWaitIdle,
       Event.destroyBuffer BufTag.staging, Event.freeMemory BufTag.staging]
    ∧ Event.destroyBuffer BufTag.vertex ∉ create_vertex_buffer_tr
    ∧ Event.destroyBuffer BufTag.vertex ∈ context_destroy_tr s := by
  refine ⟨by decide, by decide, ?_⟩
  simp [context_destroy_tr, cleanup_swapchain]

end VkTests
